import Mathlib

/-!
Shallow embedding of the AquaGuard telemetry gateway (`src/index.js`).

The gateway is an Express app; we model its pure decision logic:
the Joi validation schemas, the JWT-based token service, and the
single / bulk ingestion handlers.  External library calls (the JWT
string codec, `Date.toISOString`, Joi's ISO-date format check, and the
Appwrite document store) are fields of an `Env` record, so every
theorem quantifies over their behaviour; each handler additionally
returns the list of documents it handed to the store, which makes
"no store write is issued" a provable statement.

JavaScript-specific behaviour that the embedding keeps faithfully:
`value.unit || getUnit(...)` and `value.location || 'unknown'` treat
the empty string as absent (`jsOr`); `!timestamp` treats the empty
string as absent (`normTimestamp`); Joi rejects unknown object keys,
which is why `BulkBody` carries an optional request-level `location`
that `validateBulkBody` refuses.
-/

/-- A timestamp as it appears in a request body after Joi's
`alternatives().try(string().isoDate(), number().positive())`:
either a string or a number (JS numbers modelled as `Rat`). -/
inductive TsRaw where
  | num (q : Rat)
  | str (s : String)
deriving DecidableEq, Repr

/-- A telemetry reading as validated by `telemetrySchema` (index.js 89-100). -/
structure Reading where
  deviceId : String
  sensorType : String
  value : Rat
  unit : Option String := none
  timestamp : Option TsRaw := none
  location : Option String := none
  metadata : Option (List (String × String)) := none
deriving DecidableEq, Repr

/-- The document handed to `databases.createDocument` (index.js 184-199 / 245-260). -/
structure TelemetryDoc where
  deviceId : String
  sensorType : String
  value : Rat
  unit : String
  timestamp : String
  location : String
  isAnomalous : Bool
  ingestedAt : String
  metadata : List (String × String)
deriving DecidableEq, Repr

/-- An error thrown by the store; `code` drives the classification at
index.js 207-213 (401, 404, anything else), `message` is what the bulk
path records per item (index.js 264). -/
structure StoreErr where
  code : Nat
  message : String
deriving DecidableEq, Repr

/-- The JWT claims set signed at index.js 142-146: `{deviceId, type, iat}`
plus the `exp` added by the library from `expiresIn`. -/
structure TokenPayload where
  deviceId : String
  type : String
  iat : Nat
  exp : Nat
deriving DecidableEq, Repr

/-- A signed JWT, modelled structurally: payload plus a signature string. -/
structure SignedToken where
  payload : TokenPayload
  sig : String
deriving DecidableEq, Repr

/-- Process-wide configuration and the external collaborators of the
gateway: the JWT secret and device-secret prefix from the environment,
the configured token lifetime in seconds (`JWT_EXPIRES_IN`, default
`15m` = 900), the current time, and the library functions the handlers
call (Date-to-ISO conversion, Joi's ISO-date format check, the store,
and the JWT string decoder used by `jwt.verify`). -/
structure Env where
  jwtSecret : String
  deviceSecretPfx : String
  jwtLifetimeSec : Nat
  nowSec : Nat
  nowIso : String
  msToIso : Rat → String
  isIsoDate : String → Bool
  store : TelemetryDoc → Except StoreErr String
  decodeToken : String → Option SignedToken

/-- The fixed sensor-type enumeration (index.js 63-72). -/
def allowedSensorTypes : List String :=
  ["flow", "pressure", "temperature", "humidity", "ph",
   "turbidity", "dissolvedOxygen", "conductivity"]

/-- Unit resolution (index.js 74-86): pure map with sentinel `"unit"`. -/
def getUnit (type : String) : String :=
  if type = "flow" then "L/min"
  else if type = "pressure" then "bar"
  else if type = "temperature" then "°C"
  else if type = "humidity" then "%"
  else if type = "ph" then "pH"
  else if type = "turbidity" then "NTU"
  else if type = "dissolvedOxygen" then "mg/L"
  else if type = "conductivity" then "μS/cm"
  else "unit"

/-- JavaScript `a || d` on an optional string: absent or empty falls
back to the default. -/
def jsOr (o : Option String) (d : String) : String :=
  match o with
  | none => d
  | some s => if s = "" then d else s

/-- Timestamp normalization (index.js 174-179 and 235-240): a number is
epoch seconds, multiplied by 1000 and formatted by `Date.toISOString`;
a falsy value (absent, or empty string) becomes the processing time;
any other string is kept as-is. -/
def normTimestamp (env : Env) : Option TsRaw → String
  | some (.num q) => env.msToIso (q * 1000)
  | some (.str s) => if s = "" then env.nowIso else s
  | none => env.nowIso

/-- The document built from a validated reading (index.js 181-199 and
242-260); identical in the single and bulk paths. -/
def mkDoc (env : Env) (r : Reading) : TelemetryDoc where
  deviceId := r.deviceId
  sensorType := r.sensorType
  value := r.value
  unit := jsOr r.unit (getUnit r.sensorType)
  timestamp := normTimestamp env r.timestamp
  location := jsOr r.location "unknown"
  isAnomalous := false
  ingestedAt := env.nowIso
  metadata := r.metadata.getD []

/-- Model of the JWT signature: an injective MAC over the payload under
the given secret. -/
def mkSig (secret : String) (p : TokenPayload) : String :=
  secret ++ "#" ++ p.deviceId ++ "#" ++ p.type ++ "#" ++ toString p.iat ++ "#" ++ toString p.exp

/-- `jwt.sign({deviceId, type: 'device', iat}, JWT_SECRET, {expiresIn})`
(index.js 142-146): payload carries the device id, the `device` type
tag, issued-at = now, expiry = now + configured lifetime. -/
def signDeviceToken (env : Env) (deviceId : String) : SignedToken :=
  let p : TokenPayload :=
    { deviceId := deviceId, type := "device",
      iat := env.nowSec, exp := env.nowSec + env.jwtLifetimeSec }
  { payload := p, sig := mkSig env.jwtSecret p }

/-- `jwt.verify(token, secret)` at time `now`: succeeds with the decoded
payload iff the signature matches the secret and the expiry has not
passed; any failure is a single error (modelled as `none`). -/
def jwtVerify (secret : String) (now : Nat) (t : SignedToken) : Option TokenPayload :=
  if t.sig = mkSig secret t.payload ∧ now < t.payload.exp then some t.payload else none

/-- JavaScript falsiness of an optional string field (`!deviceId`). -/
def jsFalsy : Option String → Bool
  | none => true
  | some s => decide (s = "")

/-- Outcome of `POST /auth/token` (index.js 128-155). -/
inductive AuthTokenResp where
  | missingCredentials
  | invalidCredentials
  | issued (token : SignedToken) (expiresIn : Nat) (tokenType : String)
deriving DecidableEq, Repr

/-- The `POST /auth/token` handler (index.js 128-155): missing/empty
field → 400 `MISSING_CREDENTIALS`; secret not equal to the configured
prefix concatenated with the device id → 401 `INVALID_CREDENTIALS`;
otherwise a signed token with the literal `expiresIn: 60 * 15`. -/
def authTokenHandler (env : Env) (deviceId deviceSecret : Option String) : AuthTokenResp :=
  if jsFalsy deviceId || jsFalsy deviceSecret then .missingCredentials
  else
    let d := deviceId.getD ""
    let s := deviceSecret.getD ""
    if s ≠ env.deviceSecretPfx ++ d then .invalidCredentials
    else .issued (signDeviceToken env d) (60 * 15) "Bearer"

/-- JavaScript `String.prototype.split` on a one-character separator,
on the character list of the string: `"".split(c)` is `[""]`, empty
components are kept. -/
def splitOnChar (c : Char) : List Char → List (List Char)
  | [] => [[]]
  | a :: rest =>
    let r := splitOnChar c rest
    if a = c then [] :: r
    else
      match r with
      | [] => [[a]]
      | g :: gs => (a :: g) :: gs

/-- `authHeader && authHeader.split(' ')[1]` (index.js 108-109): the
bearer token string, or nothing when the header is absent, has no
second space-separated component, or that component is empty. -/
def extractToken (authHeader : Option String) : Option String :=
  match authHeader with
  | none => none
  | some h =>
    if h = "" then none
    else
      match (splitOnChar ' ' h.toList).get? 1 with
      | none => none
      | some t => if t.isEmpty then none else some (String.mk t)

/-- Outcome of the `authenticateToken` middleware (index.js 107-125). -/
inductive AuthResult where
  | missingToken
  | invalidToken
  | authed (deviceId : String) (tokenExp : Nat)
deriving DecidableEq, Repr

/-- The `authenticateToken` middleware (index.js 107-125): no bearer
token → 401 `MISSING_TOKEN`; any `jwt.verify` failure (undecodable
string, bad signature, or past expiry) → 403 `INVALID_TOKEN`; success
binds `req.deviceId` and `req.tokenExp` from the decoded payload. -/
def authenticateToken (env : Env) (authHeader : Option String) : AuthResult :=
  match extractToken authHeader with
  | none => .missingToken
  | some s =>
    match env.decodeToken s with
    | none => .invalidToken
    | some t =>
      match jwtVerify env.jwtSecret env.nowSec t with
      | none => .invalidToken
      | some p => .authed p.deviceId p.exp

/-- Joi `string().optional()`: an empty string is not allowed. -/
def validOptStr : Option String → Bool
  | none => true
  | some s => decide (s ≠ "")

/-- Joi `alternatives().try(string().isoDate(), number().positive())`. -/
def validTs (env : Env) : Option TsRaw → Bool
  | none => true
  | some (.num q) => decide (0 < q)
  | some (.str s) => env.isIsoDate s

/-- `telemetrySchema` (index.js 89-100): deviceId 1-100 chars, sensor
type in the fixed enumeration, value in [-1000, 10000], optional
non-empty unit and location, optional ISO-string or positive-number
timestamp. -/
def validateReading (env : Env) (r : Reading) : Bool :=
  decide (1 ≤ r.deviceId.length) && decide (r.deviceId.length ≤ 100) &&
  allowedSensorTypes.contains r.sensorType &&
  decide ((-1000 : Rat) ≤ r.value) && decide (r.value ≤ 10000) &&
  validOptStr r.unit && validTs env r.timestamp && validOptStr r.location

/-- The body of `POST /ingest/bulk`.  Besides `readings`, we model the
one extra key the spec talks about — a request-level `location` — so
that Joi's unknown-key rejection is visible: `bulkTelemetrySchema`
(index.js 102-104) declares only `readings`, hence any body carrying a
request-level location fails validation. -/
structure BulkBody where
  readings : List Reading
  location : Option String := none
deriving DecidableEq, Repr

/-- `bulkTelemetrySchema` (index.js 102-104): exactly the `readings`
key (no request-level location), 1-100 items, each item validated by
`telemetrySchema`. -/
def validateBulkBody (env : Env) (b : BulkBody) : Bool :=
  b.location.isNone &&
  decide (1 ≤ b.readings.length) && decide (b.readings.length ≤ 100) &&
  b.readings.all (validateReading env)

/-- Outcome of `POST /ingest` (index.js 163-215). -/
inductive IngestResp where
  | validationError
  | deviceIdMismatch
  | dbAuthError
  | dbNotFound
  | ingestionError
  | created (documentId : String) (timestamp : String)
deriving DecidableEq, Repr

/-- Store-error classification of the single path (index.js 207-213). -/
def classifyStoreErr (e : StoreErr) : IngestResp :=
  if e.code = 401 then .dbAuthError
  else if e.code = 404 then .dbNotFound
  else .ingestionError

/-- The `POST /ingest` handler (index.js 163-215), paired with the list
of documents handed to the store: schema failure → 400 with no store
call; reading device id different from the authenticated one → 403
`DEVICE_ID_MISMATCH` with no store call; otherwise exactly one store
call, answered 201 on success or a classified 500 on store error. -/
def ingestHandler (env : Env) (authDeviceId : String) (body : Reading) :
    IngestResp × List TelemetryDoc :=
  if validateReading env body = false then (.validationError, [])
  else if body.deviceId ≠ authDeviceId then (.deviceIdMismatch, [])
  else
    let doc := mkDoc env body
    match env.store doc with
    | .ok docId => (.created docId doc.timestamp, [doc])
    | .error e => (classifyStoreErr e, [doc])

/-- One entry of the bulk `results` array (index.js 262). -/
structure BulkItemOk where
  documentId : String
  timestamp : String
  sensorType : String
deriving DecidableEq, Repr

/-- One entry of the bulk `errors` array (index.js 231 and 264). -/
structure BulkItemErr where
  reading : Reading
  error : String
deriving DecidableEq, Repr

/-- The `for (const reading of value.readings)` loop of the bulk
handler (index.js 228-266): per reading, a device-id mismatch is
recorded as a failure with no store call; otherwise the store is
called, a success is recorded on `.ok` and a failure carrying the
thrown message on `.error`; no outcome ever stops the loop.  Returns
(results, errors, documents handed to the store), each in input
order. -/
def processReadings (env : Env) (authDeviceId : String) :
    List Reading → List BulkItemOk × List BulkItemErr × List TelemetryDoc
  | [] => ([], [], [])
  | r :: rs =>
    let rest := processReadings env authDeviceId rs
    if r.deviceId ≠ authDeviceId then
      (rest.1, { reading := r, error := "Device ID mismatch" } :: rest.2.1, rest.2.2)
    else
      match env.store (mkDoc env r) with
      | .ok docId =>
        ({ documentId := docId, timestamp := (mkDoc env r).timestamp,
           sensorType := r.sensorType } :: rest.1,
         rest.2.1, mkDoc env r :: rest.2.2)
      | .error e =>
        (rest.1, { reading := r, error := e.message } :: rest.2.1, mkDoc env r :: rest.2.2)

/-- The bulk 201 response body (index.js 270). -/
structure BulkResp where
  status : Nat
  success : Bool
  processed : Nat
  failed : Nat
  results : List BulkItemOk
  errors : Option (List BulkItemErr)
deriving DecidableEq, Repr

/-- Outcome of `POST /ingest/bulk` (index.js 218-275). -/
inductive BulkHandlerResp where
  | validationError
  | done (resp : BulkResp)
deriving DecidableEq, Repr

/-- The `POST /ingest/bulk` handler (index.js 218-275), paired with the
documents handed to the store: schema failure → 400 with no store
call; otherwise the loop runs over every reading and the response is
always 201 with `success: true`, the two counts, the results array,
and the errors array only when non-empty (index.js 270). -/
def bulkIngestHandler (env : Env) (authDeviceId : String) (body : BulkBody) :
    BulkHandlerResp × List TelemetryDoc :=
  if validateBulkBody env body = false then (.validationError, [])
  else
    let out := processReadings env authDeviceId body.readings
    (.done { status := 201, success := true,
             processed := out.1.length, failed := out.2.1.length,
             results := out.1,
             errors := if out.2.1.length > 0 then some out.2.1 else none },
     out.2.2)

/-- Whether the store call for this reading's document fails. -/
def storeWriteFails (env : Env) (r : Reading) : Bool :=
  match env.store (mkDoc env r) with
  | .ok _ => false
  | .error _ => true

/-- Whether a bulk item individually fails: device-id mismatch, or
store write error. -/
def readingFails (env : Env) (authDeviceId : String) (r : Reading) : Bool :=
  decide (r.deviceId ≠ authDeviceId) || storeWriteFails env r

/-- The `results` entry produced for a non-failing reading. -/
def bulkOkEntry (env : Env) (r : Reading) : BulkItemOk where
  documentId :=
    match env.store (mkDoc env r) with
    | .ok docId => docId
    | .error _ => ""
  timestamp := (mkDoc env r).timestamp
  sensorType := r.sensorType

/-- The `errors` entry produced for a failing reading. -/
def bulkErrEntry (env : Env) (authDeviceId : String) (r : Reading) : BulkItemErr :=
  if r.deviceId ≠ authDeviceId then { reading := r, error := "Device ID mismatch" }
  else
    { reading := r,
      error :=
        match env.store (mkDoc env r) with
        | .error e => e.message
        | .ok _ => "" }

/-- The location rule exactly as the spec states it (§4.3 rule 6):
reading-level value when present, else the request-level fallback when
present, else `"unknown"`.  Stated for comparison with the code. -/
def specLocationRule (readingLoc reqLoc : Option String) : String :=
  match readingLoc with
  | some s => s
  | none =>
    match reqLoc with
    | some s => s
    | none => "unknown"

/-- Characterization of the bulk loop: the results are exactly the
non-failing readings in input order, the errors exactly the failing
readings in input order, and the store is called exactly for the
readings whose device id matches, in input order. -/
theorem processReadings_eq (env : Env) (auth : String) (rs : List Reading) :
    processReadings env auth rs =
      ((rs.filter fun r => !readingFails env auth r).map (bulkOkEntry env),
       (rs.filter (readingFails env auth)).map (bulkErrEntry env auth),
       (rs.filter fun r => decide (r.deviceId = auth)).map (mkDoc env)) := by
  induction rs with
  | nil => rfl
  | cons r rs ih =>
    by_cases hid : r.deviceId = auth
    · cases hs : env.store (mkDoc env r) with
      | ok docId =>
        have hfail : readingFails env auth r = false := by
          simp [readingFails, storeWriteFails, hid, hs]
        simp [processReadings, hid, hs, ih, List.filter_cons, hfail,
              bulkOkEntry, bulkErrEntry]
      | error e =>
        have hfail : readingFails env auth r = true := by
          simp [readingFails, storeWriteFails, hs]
        simp [processReadings, hid, hs, ih, List.filter_cons, hfail,
              bulkOkEntry, bulkErrEntry]
    · have hfail : readingFails env auth r = true := by
        simp [readingFails, hid]
      simp [processReadings, hid, ih, List.filter_cons, hfail,
            bulkErrEntry]

/-- Counting helper: the readings that do not satisfy `p` are the whole
list minus the count of those that do. -/
theorem length_filter_not_eq (p : Reading → Bool) (l : List Reading) :
    (l.filter fun r => !p r).length = l.length - l.countP p := by
  induction l with
  | nil => rfl
  | cons a l ih =>
    have hle := List.countP_le_length (p := p) (l := l)
    by_cases h : p a = true
    · have hc : List.countP p (a :: l) = List.countP p l + 1 := by
        simp [List.countP_cons, h]
      rw [List.filter_cons_of_neg (by simp [h]), hc, ih, List.length_cons]
      omega
    · simp only [Bool.not_eq_true] at h
      have hc : List.countP p (a :: l) = List.countP p l := by
        simp [List.countP_cons, h]
      rw [List.filter_cons_of_pos (by simp [h]), hc, List.length_cons, List.length_cons, ih]
      omega

/-- Appending a non-empty string on the right gives a non-empty string
(so a well-formed device secret is never falsy). -/
theorem append_ne_empty_right (a b : String) (hb : b ≠ "") : a ++ b ≠ "" := by
  intro h
  apply hb
  have h2 : (a ++ b).data = ("" : String).data := congrArg String.data h
  rw [String.data_append] at h2
  simp only [List.append_eq_nil] at h2
  exact String.ext (h2.2.trans rfl)

/-- A structurally invalid token for concrete tests: wrong signature
and an expiry already in the past. -/
def tokBad : SignedToken where
  payload := { deviceId := "d1", type := "device", iat := 0, exp := 100 }
  sig := "bad"

/-- A concrete environment for evaluating the handlers: store writes
fail exactly for `ph` documents, one ISO string is recognised, one
token string decodes. -/
def envA : Env where
  jwtSecret := "k"
  deviceSecretPfx := "pf-"
  jwtLifetimeSec := 900
  nowSec := 1000
  nowIso := "2026-01-01T00:00:00.000Z"
  msToIso := fun q => "ms:" ++ toString q.num
  isIsoDate := fun s => decide (s = "2025-05-05T05:05:05Z")
  store := fun d =>
    if d.sensorType = "ph" then .error { code := 500, message := "boom" }
    else .ok ("doc-" ++ d.sensorType)
  decodeToken := fun s => if s = "badtok" then some tokBad else none

/-- Same environment with a configured token lifetime different from
15 minutes. -/
def envB : Env := { envA with jwtLifetimeSec := 60 }

/-- Concrete readings for witnesses. -/
def rFlow : Reading := { deviceId := "d1", sensorType := "flow", value := 7 }

/-- A reading whose store write fails under `envA`. -/
def rPh : Reading := { deviceId := "d1", sensorType := "ph", value := 7 }

/-- A reading whose device id does not match the authenticated `d1`. -/
def rOther : Reading := { deviceId := "d2", sensorType := "temperature", value := 7 }

/-- A matching reading whose store write succeeds under `envA`. -/
def rTemp : Reading := { deviceId := "d1", sensorType := "temperature", value := 7 }

/-- A reading with a sensor type outside the fixed enumeration. -/
def rBad : Reading := { deviceId := "d1", sensorType := "sound", value := 1 }

/-- A reading with a non-ISO string timestamp. -/
def rBadTs : Reading :=
  { deviceId := "d1", sensorType := "flow", value := 1, timestamp := some (.str "nope") }

/-- A reading carrying its own location. -/
def rLoc : Reading :=
  { deviceId := "d1", sensorType := "flow", value := 1, location := some "yard" }

/-- A bulk body with two individually failing readings out of four. -/
def bodyA : BulkBody := { readings := [rFlow, rPh, rOther, rTemp] }

/-- A bulk body whose every reading fails (device-id mismatch). -/
def bodyFail : BulkBody := { readings := [rOther] }

/-- A bulk body carrying a request-level location key. -/
def bodyLoc : BulkBody := { readings := [rFlow], location := some "central" }

/-- Claim C1: for every bulk request whose body passes the batch schema
(1-100 readings), with K the number of readings that individually fail
(device-id mismatch or store write error), the handler processes all N
readings — the results and errors sequences together cover every
reading, none is skipped — and the response reports
processed = N - K and failed = K; the results sequence is exactly the
non-failing readings in input order and the failures sequence exactly
the failing readings in input order. -/
theorem c1_bulk_partial_failure (env : Env) (auth : String) (body : BulkBody)
    (hv : validateBulkBody env body = true)
    (K : Nat) (hK : K = body.readings.countP (readingFails env auth)) :
    ∃ b : BulkResp, (bulkIngestHandler env auth body).1 = .done b ∧
      b.processed = body.readings.length - K ∧
      b.failed = K ∧
      b.processed + b.failed = body.readings.length ∧
      b.results =
        (body.readings.filter fun r => !readingFails env auth r).map (bulkOkEntry env) ∧
      b.errors.getD [] =
        (body.readings.filter (readingFails env auth)).map (bulkErrEntry env auth) := by
  have hcount := List.countP_le_length (p := readingFails env auth) (l := body.readings)
  have hnot := length_filter_not_eq (readingFails env auth) body.readings
  have hcp := List.countP_eq_length_filter (l := body.readings) (p := readingFails env auth)
  have hrun : bulkIngestHandler env auth body =
      (BulkHandlerResp.done
        { status := 201
          success := true
          processed :=
            ((body.readings.filter fun r => !readingFails env auth r).map (bulkOkEntry env)).length
          failed :=
            ((body.readings.filter (readingFails env auth)).map (bulkErrEntry env auth)).length
          results :=
            (body.readings.filter fun r => !readingFails env auth r).map (bulkOkEntry env)
          errors :=
            if ((body.readings.filter (readingFails env auth)).map (bulkErrEntry env auth)).length > 0
            then some ((body.readings.filter (readingFails env auth)).map (bulkErrEntry env auth))
            else none },
       (body.readings.filter fun r => decide (r.deviceId = auth)).map (mkDoc env)) := by
    simp [bulkIngestHandler, hv, processReadings_eq]
  refine ⟨_, by rw [hrun], ?_, ?_, ?_, rfl, ?_⟩
  · show ((body.readings.filter fun r => !readingFails env auth r).map (bulkOkEntry env)).length =
      body.readings.length - K
    rw [List.length_map, hnot, hK]
  · show ((body.readings.filter (readingFails env auth)).map (bulkErrEntry env auth)).length = K
    rw [List.length_map, ← hcp]
    exact hK.symm
  · show ((body.readings.filter fun r => !readingFails env auth r).map (bulkOkEntry env)).length +
      ((body.readings.filter (readingFails env auth)).map (bulkErrEntry env auth)).length =
      body.readings.length
    simp only [List.length_map]
    omega
  · show (if ((body.readings.filter (readingFails env auth)).map (bulkErrEntry env auth)).length > 0
        then some ((body.readings.filter (readingFails env auth)).map (bulkErrEntry env auth))
        else none).getD [] =
      (body.readings.filter (readingFails env auth)).map (bulkErrEntry env auth)
    by_cases hpos :
      0 < ((body.readings.filter (readingFails env auth)).map (bulkErrEntry env auth)).length
    · simp only [List.length_map] at hpos
      simp [hpos]
    · simp only [List.length_map, not_lt, Nat.le_zero, List.length_eq_zero] at hpos
      simp [hpos]

/-- Claim C1 witness: a concrete 4-reading batch under `envA` where
reading 2 fails on the store write and reading 3 on the device-id
check (K = 2). -/
theorem c1_bulk_partial_failure_witness :
    validateBulkBody envA bodyA = true ∧
    (2 : Nat) = bodyA.readings.countP (readingFails envA "d1") ∧
    (∃ b : BulkResp, (bulkIngestHandler envA "d1" bodyA).1 = .done b ∧
      b.processed = bodyA.readings.length - 2 ∧
      b.failed = 2 ∧
      b.processed + b.failed = bodyA.readings.length ∧
      b.results =
        (bodyA.readings.filter fun r => !readingFails envA "d1" r).map (bulkOkEntry envA) ∧
      b.errors.getD [] =
        (bodyA.readings.filter (readingFails envA "d1")).map (bulkErrEntry envA "d1")) :=
  ⟨by decide, by decide, c1_bulk_partial_failure envA "d1" bodyA (by decide) 2 (by decide)⟩

/-- Claim C2: device-identity binding.  In the single path a validated
reading whose device id differs from the token's is answered
`DEVICE_ID_MISMATCH` with no store call; every document the single
path hands to the store carries the reading's own device id, equal to
the authenticated one; in the bulk path the store is called exactly
for the readings whose device id matches (so a mismatched reading is
never written), every written document carries the authenticated
device id, and every mismatched reading is recorded as a per-item
`Device ID mismatch` failure — a mismatched id is never replaced. -/
theorem c2_device_binding (env : Env) (auth : String) :
    (∀ r : Reading, validateReading env r = true → r.deviceId ≠ auth →
      ingestHandler env auth r = (.deviceIdMismatch, [])) ∧
    (∀ r : Reading, ∀ d ∈ (ingestHandler env auth r).2,
      d.deviceId = r.deviceId ∧ d.deviceId = auth) ∧
    (∀ body : BulkBody, validateBulkBody env body = true →
      (bulkIngestHandler env auth body).2 =
        (body.readings.filter fun r => decide (r.deviceId = auth)).map (mkDoc env) ∧
      (∀ d ∈ (bulkIngestHandler env auth body).2, d.deviceId = auth) ∧
      (∀ r ∈ body.readings, r.deviceId ≠ auth →
        ∃ b : BulkResp, (bulkIngestHandler env auth body).1 = .done b ∧
          ({ reading := r, error := "Device ID mismatch" } : BulkItemErr) ∈ b.errors.getD [])) := by
  refine ⟨?_, ?_, ?_⟩
  · intro r hvr hne
    simp [ingestHandler, hvr, hne]
  · intro r d hd
    by_cases hvr : validateReading env r = false
    · simp [ingestHandler, hvr] at hd
    · by_cases hne : r.deviceId ≠ auth
      · simp [ingestHandler, hvr, hne] at hd
      · push_neg at hne
        have hd2 : d = mkDoc env r := by
          rcases hs : env.store (mkDoc env r) with e | docId <;>
            simp [ingestHandler, hvr, hne, hs] at hd <;> exact hd
        subst hd2
        exact ⟨rfl, hne⟩
  · intro body hv
    have hw : (bulkIngestHandler env auth body).2 =
        (body.readings.filter fun r => decide (r.deviceId = auth)).map (mkDoc env) := by
      simp [bulkIngestHandler, hv, processReadings_eq]
    refine ⟨hw, ?_, ?_⟩
    · intro d hd
      rw [hw] at hd
      rcases List.mem_map.mp hd with ⟨r, hr, rfl⟩
      have := (List.mem_filter.mp hr).2
      have hid : r.deviceId = auth := by simpa using this
      simpa [mkDoc] using hid
    · intro r hr hne
      have hfail : readingFails env auth r = true := by
        simp [readingFails, hne]
      have hmem : r ∈ body.readings.filter (readingFails env auth) :=
        List.mem_filter.mpr ⟨hr, hfail⟩
      have hentry : bulkErrEntry env auth r =
          { reading := r, error := "Device ID mismatch" } := by
        simp [bulkErrEntry, hne]
      have hpos : 0 < (body.readings.filter (readingFails env auth)).length :=
        List.length_pos.mpr (List.ne_nil_of_mem hmem)
      have hrun1 : (bulkIngestHandler env auth body).1 =
          BulkHandlerResp.done
            { status := 201
              success := true
              processed :=
                ((body.readings.filter fun r => !readingFails env auth r).map (bulkOkEntry env)).length
              failed :=
                ((body.readings.filter (readingFails env auth)).map (bulkErrEntry env auth)).length
              results :=
                (body.readings.filter fun r => !readingFails env auth r).map (bulkOkEntry env)
              errors :=
                if ((body.readings.filter (readingFails env auth)).map (bulkErrEntry env auth)).length > 0
                then some ((body.readings.filter (readingFails env auth)).map (bulkErrEntry env auth))
                else none } := by
        simp [bulkIngestHandler, hv, processReadings_eq]
      refine ⟨_, hrun1, ?_⟩
      show ({ reading := r, error := "Device ID mismatch" } : BulkItemErr) ∈
        (if ((body.readings.filter (readingFails env auth)).map (bulkErrEntry env auth)).length > 0
          then some ((body.readings.filter (readingFails env auth)).map (bulkErrEntry env auth))
          else none).getD []
      rw [if_pos (by simpa using hpos)]
      rw [Option.getD_some, ← hentry]
      exact List.mem_map_of_mem _ hmem

/-- Claim C2 witness: under `envA` with authenticated device `d1`, the
mismatched reading `rOther` is rejected with no store write in the
single path, and recorded as a per-item failure in the bulk path. -/
theorem c2_device_binding_witness :
    validateReading envA rOther = true ∧ rOther.deviceId ≠ "d1" ∧
    ingestHandler envA "d1" rOther = (.deviceIdMismatch, []) ∧
    validateBulkBody envA bodyA = true ∧ rOther ∈ bodyA.readings ∧
    (∃ b : BulkResp, (bulkIngestHandler envA "d1" bodyA).1 = .done b ∧
      ({ reading := rOther, error := "Device ID mismatch" } : BulkItemErr) ∈ b.errors.getD []) :=
  ⟨by decide, by decide,
   (c2_device_binding envA "d1").1 rOther (by decide) (by decide),
   by decide, by decide,
   ((c2_device_binding envA "d1").2.2 bodyA (by decide)).2.2 rOther (by decide) (by decide)⟩

/-- Claim C3: for every non-empty device id, presenting the secret
formed by the configured prefix concatenated with the id succeeds, and
the issued token verifies (before its expiry, i.e. for a positive
configured lifetime) to a payload whose device id is exactly the one
issued — the round-trip is the identity on the device id. -/
theorem c3_token_roundtrip (env : Env) (d : String) (hd : d ≠ "")
    (hl : 0 < env.jwtLifetimeSec) :
    authTokenHandler env (some d) (some (env.deviceSecretPfx ++ d)) =
      .issued (signDeviceToken env d) 900 "Bearer" ∧
    jwtVerify env.jwtSecret env.nowSec (signDeviceToken env d) =
      some (signDeviceToken env d).payload ∧
    (signDeviceToken env d).payload.deviceId = d := by
  have hne : env.deviceSecretPfx ++ d ≠ "" := append_ne_empty_right _ _ hd
  refine ⟨?_, ?_, rfl⟩
  · simp [authTokenHandler, jsFalsy, hd, hne]
  · unfold jwtVerify
    rw [if_pos]
    exact ⟨rfl, by simp [signDeviceToken]; omega⟩

/-- Claim C3 witness: device `d1` under `envA`. -/
theorem c3_token_roundtrip_witness :
    ("d1" : String) ≠ "" ∧ 0 < envA.jwtLifetimeSec ∧
    (authTokenHandler envA (some "d1") (some (envA.deviceSecretPfx ++ "d1")) =
        .issued (signDeviceToken envA "d1") 900 "Bearer" ∧
      jwtVerify envA.jwtSecret envA.nowSec (signDeviceToken envA "d1") =
        some (signDeviceToken envA "d1").payload ∧
      (signDeviceToken envA "d1").payload.deviceId = "d1") :=
  ⟨by decide, by decide, c3_token_roundtrip envA "d1" (by decide) (by decide)⟩

/-- Claim C4: token issuance succeeds exactly when the device id field
is present and non-empty and the secret field is exactly the
configured prefix concatenated with the device id; a missing or empty
field yields the missing-credentials error; every other presented
secret yields the single data-free `invalidCredentials` answer, which
therefore cannot reveal which part of the comparison failed. -/
theorem c4_issuance_iff (env : Env) (did ds : Option String) :
    ((∃ t e ty, authTokenHandler env did ds = .issued t e ty) ↔
      ∃ d, did = some d ∧ d ≠ "" ∧ ds = some (env.deviceSecretPfx ++ d)) ∧
    ((jsFalsy did || jsFalsy ds) = true →
      authTokenHandler env did ds = .missingCredentials) ∧
    (∀ d s, did = some d → ds = some s → d ≠ "" → s ≠ "" →
      s ≠ env.deviceSecretPfx ++ d →
      authTokenHandler env did ds = .invalidCredentials) := by
  refine ⟨⟨?_, ?_⟩, ?_, ?_⟩
  · rintro ⟨t, e, ty, h⟩
    by_cases hf : (jsFalsy did || jsFalsy ds) = true
    · simp [authTokenHandler, hf] at h
    · have hf2 := hf
      simp only [Bool.or_eq_true, not_or] at hf2
      rcases did with _ | d
      · simp [jsFalsy] at hf2
      rcases ds with _ | s
      · simp [jsFalsy] at hf2
      have hdne : d ≠ "" := by simpa [jsFalsy] using hf2.1
      have hsne : s ≠ "" := by simpa [jsFalsy] using hf2.2
      by_cases heq : s = env.deviceSecretPfx ++ d
      · exact ⟨d, rfl, hdne, by rw [heq]⟩
      · simp [authTokenHandler, jsFalsy, hdne, hsne, heq] at h
  · rintro ⟨d, rfl, hdne, rfl⟩
    have hne : env.deviceSecretPfx ++ d ≠ "" := append_ne_empty_right _ _ hdne
    exact ⟨signDeviceToken env d, 900, "Bearer", by simp [authTokenHandler, jsFalsy, hdne, hne]⟩
  · intro hf
    simp [authTokenHandler, hf]
  · intro d s hdid hds hdne hsne hne
    subst hdid
    subst hds
    simp [authTokenHandler, jsFalsy, hdne, hsne, hne]

/-- Claim C4 witness: under `envA`, a wrong secret for `d1` is answered
`invalidCredentials`, an absent device id `missingCredentials`, and
the correct pair succeeds. -/
theorem c4_issuance_iff_witness :
    authTokenHandler envA (some "d1") (some "wrong") = .invalidCredentials ∧
    authTokenHandler envA none (some "x") = .missingCredentials ∧
    (∃ t e ty, authTokenHandler envA (some "d1") (some "pf-d1") = .issued t e ty) :=
  ⟨(c4_issuance_iff envA (some "d1") (some "wrong")).2.2 "d1" "wrong" rfl rfl
      (by decide) (by decide) (by decide),
   (c4_issuance_iff envA none (some "x")).2.1 (by decide),
   (c4_issuance_iff envA (some "d1") (some "pf-d1")).1.mpr
      ⟨"d1", rfl, by decide, by decide⟩⟩

/-- Claim C5: a single-ingest reading whose sensor type is outside the
fixed enumeration is answered with the validation error and the list
of documents handed to the store is empty — the store is untouched. -/
theorem c5_invalid_sensor_type (env : Env) (auth : String) (r : Reading)
    (h : allowedSensorTypes.contains r.sensorType = false) :
    ingestHandler env auth r = (.validationError, []) := by
  have hv : validateReading env r = false := by
    unfold validateReading
    rw [h]
    simp
  simp [ingestHandler, hv]

/-- Claim C5 witness: sensor type `sound` under `envA`. -/
theorem c5_invalid_sensor_type_witness :
    allowedSensorTypes.contains rBad.sensorType = false ∧
    ingestHandler envA "d1" rBad = (.validationError, []) :=
  ⟨by decide, c5_invalid_sensor_type envA "d1" rBad (by decide)⟩

/-- Claim C6: timestamp normalization case by case — a numeric
timestamp is taken as Unix epoch seconds and rendered as the ISO
instant of that epoch (milliseconds = seconds × 1000); a valid
(hence non-empty) ISO string is used unchanged; an absent timestamp
becomes the current processing time; every document handed to the
store by the single path carries the normalized timestamp; and a
string that is not a valid ISO date, or a non-positive number, fails
schema validation with no store write. -/
theorem c6_timestamp_normalization (env : Env) (auth : String) :
    (∀ q : Rat, normTimestamp env (some (.num q)) = env.msToIso (q * 1000)) ∧
    (∀ s : String, env.isIsoDate s = true → s ≠ "" →
      normTimestamp env (some (.str s)) = s) ∧
    (normTimestamp env none = env.nowIso) ∧
    (∀ r : Reading, ∀ d ∈ (ingestHandler env auth r).2,
      d.timestamp = normTimestamp env r.timestamp) ∧
    (∀ r : Reading, ∀ s : String, r.timestamp = some (.str s) →
      env.isIsoDate s = false → ingestHandler env auth r = (.validationError, [])) ∧
    (∀ r : Reading, ∀ q : Rat, r.timestamp = some (.num q) → ¬0 < q →
      ingestHandler env auth r = (.validationError, [])) := by
  refine ⟨fun q => rfl, ?_, rfl, ?_, ?_, ?_⟩
  · intro s _ hs
    simp [normTimestamp, hs]
  · intro r d hd
    by_cases hvr : validateReading env r = false
    · simp [ingestHandler, hvr] at hd
    · by_cases hne : r.deviceId ≠ auth
      · simp [ingestHandler, hvr, hne] at hd
      · have hd2 : d = mkDoc env r := by
          rcases hs : env.store (mkDoc env r) with e | docId <;>
            simp [ingestHandler, hvr, hne, hs] at hd <;> exact hd
        subst hd2
        rfl
  · intro r s hts hiso
    have hv : validateReading env r = false := by
      simp [validateReading, validTs, hts, hiso]
    simp [ingestHandler, hv]
  · intro r q hts hq
    have hv : validateReading env r = false := by
      simp [validateReading, validTs, hts, hq]
    simp [ingestHandler, hv]

/-- Claim C6 witness: under `envA`, epoch 5 renders via `msToIso 5000`,
the recognised ISO string survives unchanged, an absent timestamp
becomes `envA.nowIso`, and the non-ISO string `nope` is rejected with
no store write. -/
theorem c6_timestamp_normalization_witness :
    normTimestamp envA (some (.num 5)) = envA.msToIso (5 * 1000) ∧
    (envA.isIsoDate "2025-05-05T05:05:05Z" = true ∧
      normTimestamp envA (some (.str "2025-05-05T05:05:05Z")) = "2025-05-05T05:05:05Z") ∧
    normTimestamp envA none = envA.nowIso ∧
    (rBadTs.timestamp = some (.str "nope") ∧ envA.isIsoDate "nope" = false ∧
      ingestHandler envA "d1" rBadTs = (.validationError, [])) :=
  ⟨(c6_timestamp_normalization envA "d1").1 5,
   ⟨by decide,
    (c6_timestamp_normalization envA "d1").2.1 "2025-05-05T05:05:05Z" (by decide) (by decide)⟩,
   (c6_timestamp_normalization envA "d1").2.2.1,
   ⟨rfl, by decide,
    (c6_timestamp_normalization envA "d1").2.2.2.2.1 rBadTs "nope" rfl (by decide)⟩⟩

/-- Claim C7: the stored location follows the spec rule "reading-level
value when present, else request-level fallback when present, else
unknown".  In the single path the request body is the reading itself,
so the two levels coincide and every stored document's location is
`specLocationRule r.location r.location`.  In the bulk path the batch
schema declares only the `readings` key, so a body carrying a
request-level location is rejected whole (second conjunct) and for
every accepted body each stored document's location equals
`specLocationRule r.location body.location` for the reading it came
from.  (The request-level fallback case can therefore never produce a
stored record that disagrees with the rule.) -/
theorem c7_location_rule (env : Env) (auth : String) :
    (∀ r : Reading, validateReading env r = true →
      ∀ d ∈ (ingestHandler env auth r).2,
        d.location = specLocationRule r.location r.location) ∧
    (∀ body : BulkBody, body.location.isSome = true →
      bulkIngestHandler env auth body = (.validationError, [])) ∧
    (∀ body : BulkBody, validateBulkBody env body = true →
      ∀ d ∈ (bulkIngestHandler env auth body).2,
        ∃ r ∈ body.readings, d = mkDoc env r ∧
          d.location = specLocationRule r.location body.location) := by
  refine ⟨?_, ?_, ?_⟩
  · intro r hvr d hd
    have hloc : validOptStr r.location = true := by
      simp only [validateReading, Bool.and_eq_true] at hvr
      exact hvr.2
    have hvr2 : ¬validateReading env r = false := by simp [hvr]
    have hd2 : d = mkDoc env r := by
      by_cases hne : r.deviceId ≠ auth
      · simp [ingestHandler, hvr2, hne] at hd
      · rcases hs : env.store (mkDoc env r) with e | docId <;>
          simp [ingestHandler, hvr2, hne, hs] at hd <;> exact hd
    subst hd2
    show jsOr r.location "unknown" = specLocationRule r.location r.location
    rcases hl : r.location with _ | s
    · rfl
    · rw [hl] at hloc
      have hs : s ≠ "" := by simpa [validOptStr] using hloc
      simp [jsOr, specLocationRule, hs]
  · intro body hsome
    have hv : validateBulkBody env body = false := by
      rcases h : body.location with _ | s
      · rw [h] at hsome
        simp at hsome
      · simp [validateBulkBody, h]
    simp [bulkIngestHandler, hv]
  · intro body hv body2 hd
    have hnone : body.location = none := by
      simp only [validateBulkBody, Bool.and_eq_true] at hv
      simpa [Option.isNone_iff_eq_none] using hv.1.1.1
    have hall : ∀ r ∈ body.readings, validateReading env r = true := by
      simp only [validateBulkBody, Bool.and_eq_true, List.all_eq_true] at hv
      exact hv.2
    have hw : (bulkIngestHandler env auth body).2 =
        (body.readings.filter fun r => decide (r.deviceId = auth)).map (mkDoc env) := by
      simp [bulkIngestHandler, hv, processReadings_eq]
    rw [hw] at hd
    rcases List.mem_map.mp hd with ⟨r, hr, rfl⟩
    have hrmem : r ∈ body.readings := (List.mem_filter.mp hr).1
    refine ⟨r, hrmem, rfl, ?_⟩
    have hloc : validOptStr r.location = true := by
      have := hall r hrmem
      simp only [validateReading, Bool.and_eq_true] at this
      exact this.2
    show jsOr r.location "unknown" = specLocationRule r.location body.location
    rw [hnone]
    rcases hl : r.location with _ | s
    · rfl
    · rw [hl] at hloc
      have hs : s ≠ "" := by simpa [validOptStr] using hloc
      simp [jsOr, specLocationRule, hs]

/-- Claim C7 witness: under `envA`, the reading carrying location
`yard` stores `yard`, and a bulk body carrying a request-level
location key is rejected whole by schema validation. -/
theorem c7_location_rule_witness :
    (validateReading envA rLoc = true ∧
      ∀ d ∈ (ingestHandler envA "d1" rLoc).2,
        d.location = specLocationRule rLoc.location rLoc.location) ∧
    (bodyLoc.location.isSome = true ∧
      bulkIngestHandler envA "d1" bodyLoc = (.validationError, [])) :=
  ⟨⟨by decide, (c7_location_rule envA "d1").1 rLoc (by decide)⟩,
   ⟨by decide, (c7_location_rule envA "d1").2.1 bodyLoc (by decide)⟩⟩

/-- Claim C8: the middleware fails with the missing-token class exactly
when no bearer token is extracted from the request, and with the
invalid-token class — never any other — for every presented token
whose expiry has passed or whose signature does not verify against
the gateway secret. -/
theorem c8_auth_error_classes (env : Env) :
    (∀ h : Option String, extractToken h = none →
      authenticateToken env h = .missingToken) ∧
    (∀ h s t, extractToken h = some s → env.decodeToken s = some t →
      t.payload.exp ≤ env.nowSec ∨ t.sig ≠ mkSig env.jwtSecret t.payload →
      authenticateToken env h = .invalidToken) := by
  constructor
  · intro h he
    simp [authenticateToken, he]
  · intro h s t he hd hbad
    have hv : jwtVerify env.jwtSecret env.nowSec t = none := by
      unfold jwtVerify
      rw [if_neg]
      rintro ⟨h1, h2⟩
      rcases hbad with hb | hb
      · omega
      · exact hb h1
    simp [authenticateToken, he, hd, hv]

/-- Claim C8 witness: under `envA`, an absent header is answered with
the missing-token class, and the decodable token `badtok` — expired
and wrongly signed — with the invalid-token class. -/
theorem c8_auth_error_classes_witness :
    authenticateToken envA none = .missingToken ∧
    authenticateToken envA (some "Bearer badtok") = .invalidToken :=
  ⟨(c8_auth_error_classes envA).1 none rfl,
   (c8_auth_error_classes envA).2 (some "Bearer badtok") "badtok" tokBad
      (by decide) (by decide) (Or.inl (by decide))⟩

/-- Claim C9: every bulk request passing batch validation is answered
201 with `success: true` — even when every reading failed — the
processed and failed counts always present and summing to the batch
size, and the `errors` field present exactly when at least one reading
failed. -/
theorem c9_bulk_response_shape (env : Env) (auth : String) (body : BulkBody)
    (hv : validateBulkBody env body = true) :
    ∃ b : BulkResp, (bulkIngestHandler env auth body).1 = .done b ∧
      b.status = 201 ∧ b.success = true ∧
      b.processed + b.failed = body.readings.length ∧
      (b.errors.isSome = true ↔ 0 < b.failed) ∧
      (b.failed = 0 → b.errors = none) := by
  have hcount := List.countP_le_length (p := readingFails env auth) (l := body.readings)
  have hnot := length_filter_not_eq (readingFails env auth) body.readings
  have hcp := List.countP_eq_length_filter (l := body.readings) (p := readingFails env auth)
  have hrun1 : (bulkIngestHandler env auth body).1 =
      BulkHandlerResp.done
        { status := 201
          success := true
          processed :=
            ((body.readings.filter fun r => !readingFails env auth r).map (bulkOkEntry env)).length
          failed :=
            ((body.readings.filter (readingFails env auth)).map (bulkErrEntry env auth)).length
          results :=
            (body.readings.filter fun r => !readingFails env auth r).map (bulkOkEntry env)
          errors :=
            if ((body.readings.filter (readingFails env auth)).map (bulkErrEntry env auth)).length > 0
            then some ((body.readings.filter (readingFails env auth)).map (bulkErrEntry env auth))
            else none } := by
    simp [bulkIngestHandler, hv, processReadings_eq]
  refine ⟨_, hrun1, rfl, rfl, ?_, ?_, ?_⟩
  · show ((body.readings.filter fun r => !readingFails env auth r).map (bulkOkEntry env)).length +
      ((body.readings.filter (readingFails env auth)).map (bulkErrEntry env auth)).length =
      body.readings.length
    simp only [List.length_map]
    omega
  · show (if ((body.readings.filter (readingFails env auth)).map (bulkErrEntry env auth)).length > 0
        then some ((body.readings.filter (readingFails env auth)).map (bulkErrEntry env auth))
        else none).isSome = true ↔
      0 < ((body.readings.filter (readingFails env auth)).map (bulkErrEntry env auth)).length
    by_cases hpos :
      0 < ((body.readings.filter (readingFails env auth)).map (bulkErrEntry env auth)).length
    · rw [if_pos hpos]
      simpa using hpos
    · rw [if_neg hpos]
      simpa using hpos
  · show ((body.readings.filter (readingFails env auth)).map (bulkErrEntry env auth)).length = 0 →
      (if ((body.readings.filter (readingFails env auth)).map (bulkErrEntry env auth)).length > 0
        then some ((body.readings.filter (readingFails env auth)).map (bulkErrEntry env auth))
        else none) = none
    intro h0
    rw [if_neg (by omega)]

/-- Claim C9 witness: a batch whose single reading fails the device-id
check under `envA` is still answered 201 / success with counts 0 + 1
and a present errors field. -/
theorem c9_bulk_response_shape_witness :
    validateBulkBody envA bodyFail = true ∧
    bodyFail.readings.countP (readingFails envA "d1") = bodyFail.readings.length ∧
    (∃ b : BulkResp, (bulkIngestHandler envA "d1" bodyFail).1 = .done b ∧
      b.status = 201 ∧ b.success = true ∧
      b.processed + b.failed = bodyFail.readings.length ∧
      (b.errors.isSome = true ↔ 0 < b.failed) ∧
      (b.failed = 0 → b.errors = none)) :=
  ⟨by decide, by decide, c9_bulk_response_shape envA "d1" bodyFail (by decide)⟩

/-- Claim C10: every successful issuance reports the literal
`expiresIn` of 900 seconds whatever the configured lifetime, while the
signed token's actual expiry is issued-at plus the configured
lifetime; so whenever the configured lifetime differs from 900 the
reported value disagrees with the token's embedded expiry. -/
theorem c10_expires_in_constant (env : Env) :
    (∀ did ds t e ty, authTokenHandler env did ds = .issued t e ty →
      e = 900 ∧ ty = "Bearer") ∧
    (∀ d : String, d ≠ "" →
      authTokenHandler env (some d) (some (env.deviceSecretPfx ++ d)) =
        .issued (signDeviceToken env d) 900 "Bearer" ∧
      (signDeviceToken env d).payload.exp =
        (signDeviceToken env d).payload.iat + env.jwtLifetimeSec ∧
      (env.jwtLifetimeSec ≠ 900 →
        (signDeviceToken env d).payload.exp ≠ (signDeviceToken env d).payload.iat + 900)) := by
  constructor
  · intro did ds t e ty h
    by_cases hf : (jsFalsy did || jsFalsy ds) = true
    · simp [authTokenHandler, hf] at h
    · have hf2 := hf
      simp only [Bool.or_eq_true, not_or] at hf2
      rcases did with _ | d
      · simp [jsFalsy] at hf2
      rcases ds with _ | s
      · simp [jsFalsy] at hf2
      have hdne : d ≠ "" := by simpa [jsFalsy] using hf2.1
      have hsne : s ≠ "" := by simpa [jsFalsy] using hf2.2
      by_cases heq : s = env.deviceSecretPfx ++ d
      · subst heq
        have hrun : authTokenHandler env (some d) (some (env.deviceSecretPfx ++ d)) =
            .issued (signDeviceToken env d) 900 "Bearer" := by
          simp [authTokenHandler, jsFalsy, hdne, hsne]
        rw [hrun] at h
        injection h with h1 h2 h3
        exact ⟨h2.symm, h3.symm⟩
      · simp [authTokenHandler, jsFalsy, hdne, hsne, heq] at h
  · intro d hd
    have hne : env.deviceSecretPfx ++ d ≠ "" := append_ne_empty_right _ _ hd
    refine ⟨by simp [authTokenHandler, jsFalsy, hd, hne], rfl, ?_⟩
    intro hl
    show env.nowSec + env.jwtLifetimeSec ≠ env.nowSec + 900
    omega

/-- Claim C10 witness: under `envB` (configured lifetime 60 seconds)
issuance for `d1` still reports 900 while the token's embedded expiry
is issued-at + 60, hence differs from issued-at + 900. -/
theorem c10_expires_in_constant_witness :
    ("d1" : String) ≠ "" ∧ envB.jwtLifetimeSec ≠ 900 ∧
    (authTokenHandler envB (some "d1") (some (envB.deviceSecretPfx ++ "d1")) =
        .issued (signDeviceToken envB "d1") 900 "Bearer" ∧
      (signDeviceToken envB "d1").payload.exp =
        (signDeviceToken envB "d1").payload.iat + envB.jwtLifetimeSec ∧
      (signDeviceToken envB "d1").payload.exp ≠ (signDeviceToken envB "d1").payload.iat + 900) :=
  ⟨by decide, by decide,
   ((c10_expires_in_constant envB).2 "d1" (by decide)).1,
   ((c10_expires_in_constant envB).2 "d1" (by decide)).2.1,
   ((c10_expires_in_constant envB).2 "d1" (by decide)).2.2 (by decide)⟩
